import Mathlib

/-!
Shallow embedding of `src/code/main.py` (class `DependencyVisualizer`):
the package metadata acquisition and normalization layer of the
dependency visualizer, together with argument validation and the
orchestrating `run` method.

JSON dictionaries are modelled as association lists in decoding order;
Python exception flow is modelled with `Except`, where each constructor
of an error type corresponds to one raise site whose exception escapes
the function.
-/

/-- The canonical normalized output dictionary built at lines 102-106 and
130-134 of main.py: keys `name`, `version`, `dependencies`. -/
structure PackageRecord where
  name : String
  version : String
  dependencies : List (String × String)
deriving DecidableEq, Repr

/-- Per-version metadata inside the registry document: an object with an
optional `dependencies` mapping. -/
structure VersionEntry where
  dependencies : Option (List (String × String))
deriving DecidableEq, Repr

/-- The decoded top-level registry response. `distTagsLatest` is `some v`
exactly when `dist-tags` is a key of the document and `latest` is a key of
its value, with value `v` (the test at line 92). `versions` is `none` when
the document has no `versions` key, matching the difference between
`data.get` at line 96 and the indexing `data` at line 99. -/
structure RawRegistryDocument where
  distTagsLatest : Option String
  versions : Option (List (String × VersionEntry))
deriving DecidableEq, Repr

/-- One entry of the fixture file: an object with optional `version` and
optional `dependencies` (lines 132-133). -/
structure FixtureEntry where
  version : Option String
  dependencies : Option (List (String × String))
deriving DecidableEq, Repr

/-- The decoded fixture file: a mapping from package name to entry. -/
abbrev RawFixtureDocument : Type := List (String × FixtureEntry)

/-- Python exceptions that can be raised inside the try body of
`get_package_info_from_url` after a successful decode: the `[0]` indexing
at line 96 and the dictionary indexing at line 99. -/
inductive PyExc where
  | indexError
  | keyError (key : String)
deriving DecidableEq, Repr

/-- The string rendering of such an exception, as interpolated into the
catch-all message at line 118. -/
def pyExcMsg : PyExc → String
  | PyExc.indexError => "list index out of range"
  | PyExc.keyError key => "\x27" ++ key ++ "\x27"

/-- Classified error outcomes of `get_package_info_from_url`, one
constructor per raise site that escapes the function (lines 108-118). -/
inductive FetchError where
  | packageNotFound (package_name : String)
  | httpError (code : Nat)
  | networkError (msg : String)
  | jsonParseError
  | unknownError (cause : String)
deriving DecidableEq, Repr

/-- True exactly on the catch-all wrapped-cause error kind of line 118. -/
def isCatchAll : FetchError → Bool
  | FetchError.unknownError _ => true
  | _ => false

/-- Classified error outcomes of `get_package_info_from_file`, one
constructor per raise site that escapes the function (lines 136-141). The
raise at line 127 does not escape: it is caught at line 140 and re-wrapped,
so it appears only as the `cause` of `fileReadError`. -/
inductive FileError where
  | fileNotFound (file_path : String)
  | jsonParseError (file_path : String)
  | fileReadError (cause : String)
deriving DecidableEq, Repr

/-- The printed message of a fixture-path error. -/
def FileError.message : FileError → String
  | FileError.fileNotFound file_path => "Тестовый файл не найден: " ++ file_path
  | FileError.jsonParseError file_path => "Ошибка парсинга JSON в файле: " ++ file_path
  | FileError.fileReadError cause => "Ошибка при чтении тестового файла: " ++ cause

/-- Version selection, lines 92-96: the `dist-tags.latest` pointer when
present, otherwise the first key of `versions` in decoding order, where the
`[0]` indexing of an empty key list raises `IndexError`. -/
def selectVersionKey (doc : RawRegistryDocument) : Except PyExc String :=
  match doc.distTagsLatest with
  | some latest => Except.ok latest
  | none =>
    match (doc.versions.getD []).head? with
    | some kv => Except.ok kv.1
    | none => Except.error PyExc.indexError

/-- The lookup `data` at `versions` at `latest_version` of line 99: a
`KeyError` when `versions` is absent or when the selected key is not in it. -/
def findVersionData (doc : RawRegistryDocument) (latest_version : String) :
    Except PyExc VersionEntry :=
  match doc.versions with
  | none => Except.error (PyExc.keyError "versions")
  | some versions =>
    match versions.lookup latest_version with
    | some version_data => Except.ok version_data
    | none => Except.error (PyExc.keyError latest_version)

/-- The try body of `get_package_info_from_url` after a successful HTTP
request and JSON decode (lines 91-106). -/
def registryTryBody (package_name : String) (doc : RawRegistryDocument) :
    Except PyExc PackageRecord :=
  match selectVersionKey doc with
  | Except.error e => Except.error e
  | Except.ok latest_version =>
    match findVersionData doc latest_version with
    | Except.error e => Except.error e
    | Except.ok version_data =>
      Except.ok { name := package_name
                  version := latest_version
                  dependencies := version_data.dependencies.getD [] }

/-- Lines 91-106 together with the surrounding handlers: an exception from
the try body is caught by the catch-all at line 117 and re-raised wrapped
(line 118). -/
def resolveRegistryDoc (package_name : String) (doc : RawRegistryDocument) :
    Except FetchError PackageRecord :=
  match registryTryBody package_name doc with
  | Except.ok record => Except.ok record
  | Except.error e => Except.error (FetchError.unknownError (pyExcMsg e))

/-- Outcome of a single HTTP GET in the model of the outside world:
a decoded body, a decode failure, an HTTP error status, or a
transport-level failure. -/
inductive RegistryResponse where
  | validJson (doc : RawRegistryDocument)
  | invalidJson
  | httpError (code : Nat)
  | urlError (msg : String)

/-- State of a file path in the model of the outside world. -/
inductive FileState where
  | missing
  | invalidJson
  | content (data : RawFixtureDocument)

/-- The outside world an invocation runs against: which paths exist, what
each HTTP GET returns, and what each file contains. -/
structure World where
  pathExists : String → Bool
  http : String → RegistryResponse
  file : String → FileState

/-- An observable side effect of one run. -/
inductive Effect where
  | httpGet (address : String)
  | fileRead (file_path : String)
deriving DecidableEq, Repr

/-- `get_package_info_from_url` (lines 80-118). The requested address is
built at line 84 from the hardcoded npm registry base and the package
name; the `url` parameter is not used there. Returns the classified
outcome together with the network effects performed. -/
def get_package_info_from_url (w : World) (package_name : String) (url : String) :
    Except FetchError PackageRecord × List Effect :=
  let npm_registry_url := "https://registry.npmjs.org/" ++ package_name
  let effects := [Effect.httpGet npm_registry_url]
  match w.http npm_registry_url with
  | RegistryResponse.httpError code =>
    if code == 404 then
      (Except.error (FetchError.packageNotFound package_name), effects)
    else
      (Except.error (FetchError.httpError code), effects)
  | RegistryResponse.urlError msg => (Except.error (FetchError.networkError msg), effects)
  | RegistryResponse.invalidJson => (Except.error FetchError.jsonParseError, effects)
  | RegistryResponse.validJson doc => (resolveRegistryDoc package_name doc, effects)

/-- The try body of `get_package_info_from_file` after a successful open
and decode (lines 126-134): the raise at line 127 is modelled as an inner
exception carrying its message. -/
def fixtureTryBody (package_name : String) (data : RawFixtureDocument) :
    Except String PackageRecord :=
  match List.lookup package_name data with
  | none =>
    Except.error ("Пакет \x27" ++ package_name ++ "\x27 не найден в тестовом файле")
  | some package_info =>
    Except.ok { name := package_name
                version := package_info.version.getD "1.0.0"
                dependencies := package_info.dependencies.getD [] }

/-- `get_package_info_from_file` (lines 120-141): a missing file and a
decode failure map to their dedicated handlers (lines 136-139); any other
exception raised inside the try body, including the not-found raise of
line 127, is caught at line 140 and re-raised wrapped at line 141. -/
def get_package_info_from_file (package_name : String) (file_path : String)
    (st : FileState) : Except FileError PackageRecord :=
  match st with
  | FileState.missing => Except.error (FileError.fileNotFound file_path)
  | FileState.invalidJson => Except.error (FileError.jsonParseError file_path)
  | FileState.content data =>
    match fixtureTryBody package_name data with
    | Except.ok record => Except.ok record
    | Except.error msg => Except.error (FileError.fileReadError msg)

/-- An acquisition error as seen by `run`: either branch of
`get_direct_dependencies` (lines 143-150). -/
inductive AppError where
  | fetch (e : FetchError)
  | fixture (e : FileError)
deriving DecidableEq, Repr

/-- The parsed command-line arguments (lines 18-60). -/
structure Args where
  package : String
  source : String
  test_mode : Bool
  output : String
  ascii_tree : Bool

/-- The emptiness test used by validation: `not s or not s.strip()`. The
string is falsy or strips to the empty string exactly when every one of its
characters is whitespace, vacuously so for the empty string. -/
def isBlank (s : String) : Bool := s.data.all Char.isWhitespace

/-- `validate_arguments` (lines 62-78): all problems are appended to one
list and returned together. -/
def validate_arguments (pathExists : String → Bool) (args : Args) : List String :=
  (if isBlank args.package then ["Имя пакета не может быть пустым"] else []) ++
  (if isBlank args.source then ["Источник (URL или путь к файлу) не может быть пустым"] else []) ++
  (if isBlank args.output then ["Имя выходного файла не может быть пустым"] else []) ++
  (if args.test_mode && !(pathExists args.source) then
    ["Тестовый файл не найден: " ++ args.source] else [])

/-- `get_direct_dependencies` (lines 143-150): mode selection between the
two adapters, then projection of the `dependencies` field. -/
def get_direct_dependencies (w : World) (args : Args) :
    Except AppError (List (String × String)) × List Effect :=
  if args.test_mode then
    match get_package_info_from_file args.package args.source (w.file args.source) with
    | Except.ok package_info =>
      (Except.ok package_info.dependencies, [Effect.fileRead args.source])
    | Except.error e =>
      (Except.error (AppError.fixture e), [Effect.fileRead args.source])
  else
    match get_package_info_from_url w args.package args.source with
    | (Except.ok package_info, effects) => (Except.ok package_info.dependencies, effects)
    | (Except.error e, effects) => (Except.error (AppError.fetch e), effects)

/-- The observable outcome of one invocation of `run`. -/
structure RunOutcome where
  exitCode : Nat
  effects : List Effect
  validationErrors : List String
  raisedError : Option AppError
deriving Repr

/-- `run` (lines 175-200): validation failures are printed and exit with
code 1 before any acquisition; any classified error from acquisition is
caught at line 198 and exits with code 1; otherwise exit code 0. -/
def run (w : World) (args : Args) : RunOutcome :=
  let errors := validate_arguments w.pathExists args
  if errors.isEmpty then
    match get_direct_dependencies w args with
    | (Except.ok _, effects) =>
      { exitCode := 0, effects := effects, validationErrors := [], raisedError := none }
    | (Except.error e, effects) =>
      { exitCode := 1, effects := effects, validationErrors := [], raisedError := some e }
  else
    { exitCode := 1, effects := [], validationErrors := errors, raisedError := none }

/-- A world in which no path exists, every HTTP request fails at transport
level and every file is missing. -/
def inertWorld : World where
  pathExists := fun _ => false
  http := fun _ => RegistryResponse.urlError "unreachable"
  file := fun _ => FileState.missing

/-- A registry document with a latest pointer `2.0.0` whose entry carries
one dependency. -/
def sampleRegistryDoc : RawRegistryDocument where
  distTagsLatest := some "2.0.0"
  versions := some [("2.0.0", { dependencies := some [("a", "^1.0")] })]

/-- A registry document with no latest pointer and two version entries. -/
def fallbackRegistryDoc : RawRegistryDocument where
  distTagsLatest := none
  versions := some [("3.1.4", { dependencies := none }), ("0.1.0", { dependencies := some [] })]

/-- A fixture file whose only top-level key is the package `other`. -/
def otherOnlyFixture : RawFixtureDocument :=
  [("other", { version := some "1.0.0", dependencies := none })]

/-- A world whose file `deps.json` holds `otherOnlyFixture` and in which
every path exists. -/
def fixtureWorld : World where
  pathExists := fun _ => true
  http := fun _ => RegistryResponse.urlError "unreachable"
  file := fun p =>
    if p == "deps.json" then FileState.content otherOnlyFixture else FileState.missing

/-- Arguments for a fixture-mode run against `deps.json` asking for `foo`. -/
def fixtureArgs : Args where
  package := "foo"
  source := "deps.json"
  test_mode := true
  output := "dependency_graph.png"
  ascii_tree := false

/-- Arguments with a blank package name and a whitespace-only source. -/
def blankArgs : Args where
  package := ""
  source := " "
  test_mode := false
  output := "dependency_graph.png"
  ascii_tree := false

/-- Any record produced by the registry try body carries the caller-supplied
package name verbatim (line 103). -/
theorem registryTryBody_ok_name (package_name : String) (doc : RawRegistryDocument)
    (record : PackageRecord) (h : registryTryBody package_name doc = Except.ok record) :
    record.name = package_name := by
  cases hs : selectVersionKey doc with
  | error e => simp [registryTryBody, hs] at h
  | ok latest_version =>
    cases hf : findVersionData doc latest_version with
    | error e => simp [registryTryBody, hs, hf] at h
    | ok version_data =>
      simp [registryTryBody, hs, hf] at h
      rw [← h]

/-- Claim C1: the claim states that the fetch operation issues its HTTP GET
to the caller-supplied source as base, at source slash packageName. The code
instead builds the address at line 84 from the hardcoded npm registry base,
ignoring the `url` parameter: at the failing input the single GET goes to
the npm registry, which differs from the address the claim requires. -/
theorem C1_get_ignores_caller_source :
    (get_package_info_from_url inertWorld "left-pad" "https://example.com/reg").2
        = [Effect.httpGet "https://registry.npmjs.org/left-pad"]
    ∧ "https://registry.npmjs.org/left-pad"
        ≠ "https://example.com/reg" ++ "/" ++ "left-pad" :=
  ⟨rfl, by decide⟩

/-- Claim C2: version selection priority. If the latest pointer is present,
every successfully produced record carries it as the version; otherwise the
record carries the first key of the versions mapping in decoding order. -/
theorem C2_version_selection_priority (package_name : String) (doc : RawRegistryDocument) :
    (∀ latest record, doc.distTagsLatest = some latest →
      resolveRegistryDoc package_name doc = Except.ok record → record.version = latest) ∧
    (∀ k entry record, doc.distTagsLatest = none →
      (doc.versions.getD []).head? = some (k, entry) →
      resolveRegistryDoc package_name doc = Except.ok record → record.version = k) := by
  constructor
  · intro latest record h1 h2
    cases hf : findVersionData doc latest with
    | error e =>
      simp [resolveRegistryDoc, registryTryBody, selectVersionKey, h1, hf] at h2
    | ok version_data =>
      simp [resolveRegistryDoc, registryTryBody, selectVersionKey, h1, hf] at h2
      rw [← h2]
  · intro k entry record h1 h2 h3
    cases hf : findVersionData doc k with
    | error e =>
      simp [resolveRegistryDoc, registryTryBody, selectVersionKey, h1, h2, hf] at h3
    | ok version_data =>
      simp [resolveRegistryDoc, registryTryBody, selectVersionKey, h1, h2, hf] at h3
      rw [← h3]

/-- Witness for C2: both branches of the priority order exercised on
concrete documents. -/
theorem C2_version_selection_priority_witness :
    ({ name := "p", version := "2.0.0", dependencies := [("a", "^1.0")] } : PackageRecord).version
        = "2.0.0"
    ∧ ({ name := "q", version := "3.1.4", dependencies := [] } : PackageRecord).version
        = "3.1.4" :=
  ⟨(C2_version_selection_priority "p" sampleRegistryDoc).1 "2.0.0"
      { name := "p", version := "2.0.0", dependencies := [("a", "^1.0")] } rfl rfl,
   (C2_version_selection_priority "q" fallbackRegistryDoc).2 "3.1.4"
      { dependencies := none }
      { name := "q", version := "3.1.4", dependencies := [] } rfl rfl rfl⟩

/-- Counterexample to claim C3: on the document with no latest pointer and
an empty versions mapping, resolution does not fail with an error kind
discriminable from the catch-all unknown-fetch kind; the escaping error is
exactly the catch-all wrap of line 118 around the IndexError of line 96. -/
theorem C3_counterexample :
    ¬ ∃ e, resolveRegistryDoc "foo" { distTagsLatest := none, versions := some [] }
        = Except.error e ∧ isCatchAll e = false := by
  rintro ⟨e, he, hcat⟩
  have h0 : resolveRegistryDoc "foo" { distTagsLatest := none, versions := some [] }
      = Except.error (FetchError.unknownError "list index out of range") := rfl
  rw [h0] at he
  injection he with h
  rw [← h] at hcat
  simp [isCatchAll] at hcat

/-- Claim C3 as amended: with no latest pointer and no versions entries the
indexing of line 96 raises IndexError, which the catch-all at line 117
wraps, so resolution fails with the unknown-fetch error kind carrying the
IndexError cause, not with a distinct version-resolution kind. -/
theorem C3_empty_versions_fails_via_catch_all (package_name : String)
    (doc : RawRegistryDocument)
    (h1 : doc.distTagsLatest = none) (h2 : doc.versions.getD [] = []) :
    resolveRegistryDoc package_name doc
      = Except.error (FetchError.unknownError "list index out of range") := by
  simp [resolveRegistryDoc, registryTryBody, selectVersionKey, h1, h2, pyExcMsg]

/-- Witness for the amended C3 at a concrete empty document. -/
theorem C3_empty_versions_fails_via_catch_all_witness :
    resolveRegistryDoc "foo" { distTagsLatest := none, versions := some [] }
      = Except.error (FetchError.unknownError "list index out of range") :=
  C3_empty_versions_fails_via_catch_all "foo"
    { distTagsLatest := none, versions := some [] } rfl rfl

/-- Any record produced from a registry document carries the caller-supplied
package name verbatim: the wrapping at lines 117-118 never alters a
successful record. -/
theorem resolveRegistryDoc_ok_name (package_name : String) (doc : RawRegistryDocument)
    (record : PackageRecord) (h : resolveRegistryDoc package_name doc = Except.ok record) :
    record.name = package_name := by
  cases hb : registryTryBody package_name doc with
  | error e => simp [resolveRegistryDoc, hb] at h
  | ok r0 =>
    simp [resolveRegistryDoc, hb] at h
    rw [← h]
    exact registryTryBody_ok_name package_name doc r0 hb

/-- Claim C6: a registry document whose latest pointer is 2.0.0 and whose
versions mapping carries key 2.0.0 with one dependency a maps-to ^1.0
resolves to the record with the requested name, version 2.0.0 and exactly
that dependency mapping. -/
theorem C6_latest_pointer_record (package_name : String) (doc : RawRegistryDocument)
    (entry : VersionEntry)
    (h1 : doc.distTagsLatest = some "2.0.0")
    (h2 : (doc.versions.getD []).lookup "2.0.0" = some entry)
    (h3 : entry.dependencies = some [("a", "^1.0")]) :
    resolveRegistryDoc package_name doc
      = Except.ok { name := package_name, version := "2.0.0",
                    dependencies := [("a", "^1.0")] } := by
  cases hv : doc.versions with
  | none => rw [hv] at h2; simp at h2
  | some versions =>
    rw [hv] at h2
    simp at h2
    simp [resolveRegistryDoc, registryTryBody, selectVersionKey, findVersionData,
      h1, hv, h2, h3]

/-- Witness for C6 on a concrete document. -/
theorem C6_latest_pointer_record_witness :
    resolveRegistryDoc "p" sampleRegistryDoc
      = Except.ok { name := "p", version := "2.0.0", dependencies := [("a", "^1.0")] } :=
  C6_latest_pointer_record "p" sampleRegistryDoc
    { dependencies := some [("a", "^1.0")] } rfl rfl rfl

/-- Claim C7: in fixture mode, an entry without a version field yields the
literal version 1.0.0 and an entry without a dependencies field yields the
empty mapping; in particular the stated concrete file resolves to the
stated record. -/
theorem C7_fixture_defaults (package_name : String) (file_path : String)
    (data : RawFixtureDocument) (entry : FixtureEntry)
    (h : List.lookup package_name data = some entry) :
    (entry.version = none →
      get_package_info_from_file package_name file_path (FileState.content data)
        = Except.ok { name := package_name, version := "1.0.0",
                      dependencies := entry.dependencies.getD [] }) ∧
    (entry.dependencies = none →
      get_package_info_from_file package_name file_path (FileState.content data)
        = Except.ok { name := package_name, version := entry.version.getD "1.0.0",
                      dependencies := [] }) ∧
    get_package_info_from_file "foo" "deps.json"
        (FileState.content
          [("foo", { version := none, dependencies := some [("bar", "1.2.3")] })])
      = Except.ok { name := "foo", version := "1.0.0",
                    dependencies := [("bar", "1.2.3")] } := by
  refine ⟨?_, ?_, rfl⟩
  · intro hv
    simp [get_package_info_from_file, fixtureTryBody, h, hv]
  · intro hd
    simp [get_package_info_from_file, fixtureTryBody, h, hd]

/-- Witness for C7: the concrete fixture file of the claim. -/
theorem C7_fixture_defaults_witness :
    get_package_info_from_file "foo" "deps.json"
        (FileState.content
          [("foo", { version := none, dependencies := some [("bar", "1.2.3")] })])
      = Except.ok { name := "foo", version := "1.0.0",
                    dependencies := [("bar", "1.2.3")] } :=
  (C7_fixture_defaults "foo" "deps.json"
    [("foo", { version := none, dependencies := some [("bar", "1.2.3")] })]
    { version := none, dependencies := some [("bar", "1.2.3")] } rfl).2.2

/-- Claim C8: in either source, when the selected entry has an absent or
empty dependencies field, resolution succeeds and the record carries the
empty dependency mapping. -/
theorem C8_absent_or_empty_dependencies (package_name : String) (file_path : String)
    (doc : RawRegistryDocument) (v : String) (entry : VersionEntry)
    (data : RawFixtureDocument) (fixture_entry : FixtureEntry) :
    (selectVersionKey doc = Except.ok v → findVersionData doc v = Except.ok entry →
      (entry.dependencies = none ∨ entry.dependencies = some []) →
      resolveRegistryDoc package_name doc
        = Except.ok { name := package_name, version := v, dependencies := [] }) ∧
    (List.lookup package_name data = some fixture_entry →
      (fixture_entry.dependencies = none ∨ fixture_entry.dependencies = some []) →
      get_package_info_from_file package_name file_path (FileState.content data)
        = Except.ok { name := package_name,
                      version := fixture_entry.version.getD "1.0.0",
                      dependencies := [] }) := by
  constructor
  · intro hs hf hd
    rcases hd with hd | hd <;>
      simp [resolveRegistryDoc, registryTryBody, hs, hf, hd]
  · intro hl hd
    rcases hd with hd | hd <;>
      simp [get_package_info_from_file, fixtureTryBody, hl, hd]

/-- Witness for C8: an absent dependencies field on the registry side and
on the fixture side, both yielding the empty mapping. -/
theorem C8_absent_or_empty_dependencies_witness :
    resolveRegistryDoc "q" fallbackRegistryDoc
      = Except.ok { name := "q", version := "3.1.4", dependencies := [] }
    ∧ get_package_info_from_file "foo" "deps.json"
        (FileState.content [("foo", { version := some "0.2.0", dependencies := none })])
      = Except.ok { name := "foo", version := "0.2.0", dependencies := [] } :=
  ⟨(C8_absent_or_empty_dependencies "q" "x" fallbackRegistryDoc "3.1.4"
      { dependencies := none } [] { version := none, dependencies := none }).1
      rfl rfl (Or.inl rfl),
   (C8_absent_or_empty_dependencies "foo" "deps.json"
      { distTagsLatest := none, versions := none } "v" { dependencies := none }
      [("foo", { version := some "0.2.0", dependencies := none })]
      { version := some "0.2.0", dependencies := none }).2
      rfl (Or.inl rfl)⟩

/-- Claim C9: on every successful resolution, in either mode, the name
field of the produced record equals the caller-supplied package identifier
verbatim. -/
theorem C9_name_echoes_request (w : World) (package_name : String) (url : String)
    (file_path : String) (st : FileState) (r1 r2 : PackageRecord) :
    ((get_package_info_from_url w package_name url).1 = Except.ok r1 →
      r1.name = package_name) ∧
    (get_package_info_from_file package_name file_path st = Except.ok r2 →
      r2.name = package_name) := by
  constructor
  · intro h
    simp only [get_package_info_from_url] at h
    cases hr : w.http ("https://registry.npmjs.org/" ++ package_name) with
    | httpError code =>
      rw [hr] at h
      by_cases hc : code == 404 <;> simp [hc] at h
    | urlError msg => rw [hr] at h; simp at h
    | invalidJson => rw [hr] at h; simp at h
    | validJson doc =>
      rw [hr] at h
      simp at h
      exact resolveRegistryDoc_ok_name package_name doc r1 h
  · intro h
    cases st with
    | missing => simp [get_package_info_from_file] at h
    | invalidJson => simp [get_package_info_from_file] at h
    | content data =>
      cases hl : List.lookup package_name data with
      | none => simp [get_package_info_from_file, fixtureTryBody, hl] at h
      | some entry =>
        simp [get_package_info_from_file, fixtureTryBody, hl] at h
        rw [← h]

/-- Witness for C9: both adapters on concrete successful inputs. -/
theorem C9_name_echoes_request_witness :
    ({ name := "p", version := "2.0.0", dependencies := [("a", "^1.0")] } : PackageRecord).name
        = "p"
    ∧ ({ name := "foo", version := "0.2.0", dependencies := [] } : PackageRecord).name
        = "foo" :=
  ⟨(C9_name_echoes_request
      { pathExists := fun _ => false
        http := fun _ => RegistryResponse.validJson sampleRegistryDoc
        file := fun _ => FileState.missing }
      "p" "https://example.com/reg" "x" FileState.missing
      { name := "p", version := "2.0.0", dependencies := [("a", "^1.0")] }
      { name := "p", version := "2.0.0", dependencies := [("a", "^1.0")] }).1 rfl,
   (C9_name_echoes_request inertWorld "foo" "u" "deps.json"
      (FileState.content [("foo", { version := some "0.2.0", dependencies := none })])
      { name := "foo", version := "0.2.0", dependencies := [] }
      { name := "foo", version := "0.2.0", dependencies := [] }).2 rfl⟩

/-- Claim C10: when the selected version key is not a key of the versions
mapping (including the case of an absent versions key), the indexing at
line 99 raises KeyError, the catch-all at line 117 wraps it, and no record
is produced: resolution fails with the wrapped-cause unknown-fetch error. -/
theorem C10_selected_version_missing_fails (package_name : String)
    (doc : RawRegistryDocument) (v : String)
    (h1 : selectVersionKey doc = Except.ok v)
    (h2 : (doc.versions.getD []).lookup v = none) :
    ∃ cause, resolveRegistryDoc package_name doc
        = Except.error (FetchError.unknownError cause) := by
  cases hv : doc.versions with
  | none =>
    exact ⟨pyExcMsg (PyExc.keyError "versions"), by
      simp [resolveRegistryDoc, registryTryBody, findVersionData, h1, hv]⟩
  | some versions =>
    rw [hv] at h2
    rw [Option.getD_some] at h2
    exact ⟨pyExcMsg (PyExc.keyError v), by
      simp [resolveRegistryDoc, registryTryBody, findVersionData, h1, hv, h2]⟩

/-- Witness for C10: a latest pointer naming a version absent from the
versions mapping. -/
theorem C10_selected_version_missing_fails_witness :
    ∃ cause, resolveRegistryDoc "p" { distTagsLatest := some "9.9.9", versions := some [] }
        = Except.error (FetchError.unknownError cause) :=
  C10_selected_version_missing_fails "p"
    { distTagsLatest := some "9.9.9", versions := some [] } "9.9.9" rfl rfl

/-- Claim C4: the claim states that a fixture document without the requested
key fails with a package-not-found error kind discriminable from the
read and parse kinds. The raise at line 127 sits inside the try block, so the
catch-all at line 140 intercepts it and re-raises it at line 141 wrapped in
the generic file-read kind: the escaping error is `fileReadError`, the same
kind as any other unexpected reader failure, with the original message only
surviving as its cause. The run still exits with code 1. -/
theorem C4_missing_key_wrapped_by_catch_all :
    get_package_info_from_file "foo" "deps.json" (FileState.content otherOnlyFixture)
        = Except.error (FileError.fileReadError
            "Пакет \x27foo\x27 не найден в тестовом файле")
    ∧ (FileError.fileReadError "Пакет \x27foo\x27 не найден в тестовом файле").message
        = "Ошибка при чтении тестового файла: Пакет \x27foo\x27 не найден в тестовом файле"
    ∧ (run fixtureWorld fixtureArgs).exitCode = 1
    ∧ (run fixtureWorld fixtureArgs).raisedError
        = some (AppError.fixture (FileError.fileReadError
            "Пакет \x27foo\x27 не найден в тестовом файле")) :=
  ⟨rfl, rfl, rfl, rfl⟩

/-- A string whose first character differs from the first character of a
prefix is not that prefix followed by anything. -/
theorem ne_head_append (a b s : String) (c d : Char) (cs ds : List Char)
    (ha : a.data = c :: cs) (hb : b.data = d :: ds) (hcd : c ≠ d) : a ≠ b ++ s := by
  intro he
  apply hcd
  have h2 : a.data = (b ++ s).data := congrArg String.data he
  rw [ha, String.data_append, hb, List.cons_append] at h2
  injection h2 with h3 h4

/-- The empty-package message appears in the validation output exactly when
the package argument is blank. -/
theorem mem_validate_package (pe : String → Bool) (args : Args) :
    ("Имя пакета не может быть пустым" ∈ validate_arguments pe args)
      ↔ isBlank args.package = true := by
  have hne2 : ("Имя пакета не может быть пустым" : String)
      ≠ "Источник (URL или путь к файлу) не может быть пустым" := by decide
  have hne3 : ("Имя пакета не может быть пустым" : String)
      ≠ "Имя выходного файла не может быть пустым" := by decide
  have hne4 : ("Имя пакета не может быть пустым" : String)
      ≠ "Тестовый файл не найден: " ++ args.source :=
    ne_head_append _ _ args.source 'И' 'Т' _ _ rfl rfl (by decide)
  by_cases hp : isBlank args.package <;> by_cases hs : isBlank args.source <;>
    by_cases ho : isBlank args.output <;>
    by_cases ht : args.test_mode && !(pe args.source) <;>
    simp [validate_arguments, hp, hs, ho, ht, hne2, hne3, hne4]

/-- The empty-source message appears in the validation output exactly when
the source argument is blank. -/
theorem mem_validate_source (pe : String → Bool) (args : Args) :
    ("Источник (URL или путь к файлу) не может быть пустым" ∈ validate_arguments pe args)
      ↔ isBlank args.source = true := by
  have hne1 : ("Источник (URL или путь к файлу) не может быть пустым" : String)
      ≠ "Имя пакета не может быть пустым" := by decide
  have hne3 : ("Источник (URL или путь к файлу) не может быть пустым" : String)
      ≠ "Имя выходного файла не может быть пустым" := by decide
  have hne4 : ("Источник (URL или путь к файлу) не может быть пустым" : String)
      ≠ "Тестовый файл не найден: " ++ args.source :=
    ne_head_append _ _ args.source 'И' 'Т' _ _ rfl rfl (by decide)
  by_cases hp : isBlank args.package <;> by_cases hs : isBlank args.source <;>
    by_cases ho : isBlank args.output <;>
    by_cases ht : args.test_mode && !(pe args.source) <;>
    simp [validate_arguments, hp, hs, ho, ht, hne1, hne3, hne4]

/-- The empty-output message appears in the validation output exactly when
the output argument is blank. -/
theorem mem_validate_output (pe : String → Bool) (args : Args) :
    ("Имя выходного файла не может быть пустым" ∈ validate_arguments pe args)
      ↔ isBlank args.output = true := by
  have hne1 : ("Имя выходного файла не может быть пустым" : String)
      ≠ "Имя пакета не может быть пустым" := by decide
  have hne2 : ("Имя выходного файла не может быть пустым" : String)
      ≠ "Источник (URL или путь к файлу) не может быть пустым" := by decide
  have hne4 : ("Имя выходного файла не может быть пустым" : String)
      ≠ "Тестовый файл не найден: " ++ args.source :=
    ne_head_append _ _ args.source 'И' 'Т' _ _ rfl rfl (by decide)
  by_cases hp : isBlank args.package <;> by_cases hs : isBlank args.source <;>
    by_cases ho : isBlank args.output <;>
    by_cases ht : args.test_mode && !(pe args.source) <;>
    simp [validate_arguments, hp, hs, ho, ht, hne1, hne2, hne4]

/-- Claim C5: each of the three emptiness errors is reported exactly when
its field is blank, all collected in one list; and whenever any of the
three fields is blank the run exits with code 1, performs no network
request or file read, and reports the whole collected list. -/
theorem C5_validation_collected_and_blocking (w : World) (args : Args) :
    (("Имя пакета не может быть пустым" ∈ validate_arguments w.pathExists args)
        ↔ isBlank args.package = true) ∧
    (("Источник (URL или путь к файлу) не может быть пустым"
        ∈ validate_arguments w.pathExists args)
        ↔ isBlank args.source = true) ∧
    (("Имя выходного файла не может быть пустым" ∈ validate_arguments w.pathExists args)
        ↔ isBlank args.output = true) ∧
    ((isBlank args.package || isBlank args.source || isBlank args.output) = true →
      (run w args).exitCode = 1 ∧ (run w args).effects = [] ∧
      (run w args).validationErrors = validate_arguments w.pathExists args) := by
  refine ⟨mem_validate_package w.pathExists args, mem_validate_source w.pathExists args,
    mem_validate_output w.pathExists args, ?_⟩
  intro hblank
  have hcases : isBlank args.package = true ∨ isBlank args.source = true ∨
      isBlank args.output = true := by simpa [or_assoc] using hblank
  have hmem : ∃ m, m ∈ validate_arguments w.pathExists args := by
    rcases hcases with h | h | h
    · exact ⟨_, (mem_validate_package w.pathExists args).2 h⟩
    · exact ⟨_, (mem_validate_source w.pathExists args).2 h⟩
    · exact ⟨_, (mem_validate_output w.pathExists args).2 h⟩
  rcases hmem with ⟨m, hm⟩
  have hempty : (validate_arguments w.pathExists args).isEmpty = false := by
    cases hx : validate_arguments w.pathExists args with
    | nil => rw [hx] at hm; exact absurd hm (List.not_mem_nil m)
    | cons a l => rfl
  simp [run, hempty]

/-- Witness for C5: a blank package name and whitespace-only source are both
reported, the run exits with code 1 and performs no acquisition. -/
theorem C5_validation_collected_and_blocking_witness :
    ("Имя пакета не может быть пустым" ∈ validate_arguments inertWorld.pathExists blankArgs)
    ∧ ("Источник (URL или путь к файлу) не может быть пустым"
        ∈ validate_arguments inertWorld.pathExists blankArgs)
    ∧ (run inertWorld blankArgs).exitCode = 1
    ∧ (run inertWorld blankArgs).effects = [] :=
  ⟨(C5_validation_collected_and_blocking inertWorld blankArgs).1.mpr (by decide),
   (C5_validation_collected_and_blocking inertWorld blankArgs).2.1.mpr (by decide),
   ((C5_validation_collected_and_blocking inertWorld blankArgs).2.2.2 (by decide)).1,
   ((C5_validation_collected_and_blocking inertWorld blankArgs).2.2.2 (by decide)).2.1⟩
